import Mathlib

/-
Verification of the module resource client in
src/edgelet/iothubservice/src/device.rs (iotedge).

The file `device.rs` is embedded directly.  Its collaborators — the
`edgelet-utils` validation macros, the generic REST `Client`, and the
generated `Module`/`AuthMechanism` model types — live in the same
repository but outside the sources provided, so they are modelled from
the specification (each such definition says so in its doc comment).

Each resource operation is embedded as a pure function returning the
trace of HTTP requests handed to the injected transport together with
the operation's result.  An empty trace means the transport was never
invoked.  A resolved `Box<Future>` is modelled by the result component.
-/

set_option autoImplicit false

namespace IotHubService

/-- Modelled from the spec: the error kinds the generic REST `Client`
(absent from the provided sources) can surface — transport failure,
non-2xx status with remote detail, and JSON (de)serialization failure.
The spec says these are "propagated, not reinterpreted". -/
inductive ClientError where
  | hyper (message : String)
  | status (code : Nat) (detail : String)
  | serde (message : String)
  deriving DecidableEq, Repr

/-- Modelled from the spec: the crate error discriminant (`error.rs` is
absent from the provided sources).  `argumentEmpty` is the local
validation kind (the spec: "carries the offending argument
name/value"), `emptyResponse` the missing-body kind, and `client`
wraps a propagated transport/protocol failure. -/
inductive ErrorKind where
  | argumentEmpty (value : String)
  | emptyResponse
  | client (e : ClientError)
  deriving DecidableEq, Repr

/-- Modelled from the spec: `AuthType` is "a discriminant (`type`)";
only the symmetric-key (`Sas`) variant is described. -/
inductive AuthType where
  | sas
  deriving DecidableEq, Repr

/-- Modelled from the spec: `SymmetricKey` "carries a primary and
secondary opaque key string" (the generated model type is absent from
the provided sources; its fields are builder-set optional values). -/
structure SymmetricKey where
  primary_key : Option String
  secondary_key : Option String
  deriving DecidableEq, Repr

def SymmetricKey.default : SymmetricKey := SymmetricKey.mk none none

def SymmetricKey.with_primary_key (self : SymmetricKey) (k : String) : SymmetricKey :=
  SymmetricKey.mk (some k) self.secondary_key

def SymmetricKey.with_secondary_key (self : SymmetricKey) (k : String) : SymmetricKey :=
  SymmetricKey.mk self.primary_key (some k)

/-- Modelled from the spec: `AuthMechanism` is "a discriminant (`type`)
plus type-specific payload", optional on a `Module`. -/
structure AuthMechanism where
  type : Option AuthType
  symmetric_key : Option SymmetricKey
  deriving DecidableEq, Repr

def AuthMechanism.default : AuthMechanism := AuthMechanism.mk none none

def AuthMechanism.with_type (self : AuthMechanism) (t : AuthType) : AuthMechanism :=
  AuthMechanism.mk (some t) self.symmetric_key

def AuthMechanism.with_symmetric_key (self : AuthMechanism) (k : SymmetricKey) : AuthMechanism :=
  AuthMechanism.mk self.type (some k)

/-- Modelled from the spec: the generated `Module` model type (absent
from the provided sources): device identifier, module identifier,
server-assigned generation identifier, "managed by" tag, and an
optional authentication mechanism; `default` leaves every field unset
and `with_x` builder methods set one field each. -/
structure Module where
  device_id : Option String
  module_id : Option String
  generation_id : Option String
  managed_by : Option String
  authentication : Option AuthMechanism
  deriving DecidableEq, Repr

def Module.default : Module := Module.mk none none none none none

def Module.with_device_id (self : Module) (v : String) : Module :=
  Module.mk (some v) self.module_id self.generation_id self.managed_by self.authentication

def Module.with_module_id (self : Module) (v : String) : Module :=
  Module.mk self.device_id (some v) self.generation_id self.managed_by self.authentication

def Module.with_generation_id (self : Module) (v : String) : Module :=
  Module.mk self.device_id self.module_id (some v) self.managed_by self.authentication

def Module.with_managed_by (self : Module) (v : String) : Module :=
  Module.mk self.device_id self.module_id self.generation_id (some v) self.authentication

def Module.with_authentication (self : Module) (v : AuthMechanism) : Module :=
  Module.mk self.device_id self.module_id self.generation_id self.managed_by (some v)

/-- Modelled from the spec: `ensure_not_empty!` (edgelet-utils, absent
from the provided sources) fails "when a device or module identifier is
empty or whitespace-only".  A string trims to empty exactly when every
character is whitespace, so the trim-emptiness test is embedded as
`List.all` over the characters. -/
def is_empty_or_whitespace (value : String) : Bool :=
  value.data.all Char.isWhitespace

/-- Modelled from the spec: the `ensure_not_empty!` validation helper —
returns the argument unchanged, or the `ArgumentEmpty` error carrying
the offending value. -/
def ensure_not_empty (value : String) : Except ErrorKind String :=
  if is_empty_or_whitespace value then
    Except.error (ErrorKind.argumentEmpty value)
  else
    Except.ok value

/-- Modelled from the spec: `fensure_not_empty!` is the same check, but
inside a function returning a future it yields an already-resolved
failed future instead of an early `Result` return.  In this embedding
both are the same `Except`; the caller turns the error into a
zero-request trace. -/
def fensure_not_empty (value : String) : Except ErrorKind String :=
  ensure_not_empty value

/-- HTTP method, as used by `device.rs` (`Method::Get/Put/Delete`). -/
inductive Method where
  | get
  | put
  | delete
  deriving DecidableEq, Repr

/-- One request handed to the injected transport.  `add_if_match = true`
means the unconditional-match precondition header (`If-Match: *`) is
attached; `false` means the header is omitted entirely (spec section 6).
`body` is the domain value the generic client serializes to JSON
(`none` = no request body); serialization itself happens inside the
spec-modelled client, as a function of this value. -/
structure HttpRequest where
  method : Method
  path : String
  query : Option (List (String × String))
  body : Option Module
  add_if_match : Bool
  deriving DecidableEq, Repr

/-- Modelled from the spec: the injected transport, typed per response
shape the generic client is instantiated at in `device.rs` (`Module`,
`Vec<Module>`, `()`).  On success it yields the deserialized body, or
`none` when the server returned no body. -/
structure Transport where
  respond_module : HttpRequest → Except ClientError (Option Module)
  respond_module_list : HttpRequest → Except ClientError (Option (List Module))
  respond_unit : HttpRequest → Except ClientError (Option Unit)

/-- Modelled from the spec: the generic REST `Client` "owns an
HTTP-capable transport, a fixed API-version string, and a base URL"
(`client.rs` is absent from the provided sources). -/
structure Client where
  service : Transport
  api_version : String
  host_name : String

/-- Modelled from the spec: `Client::request::<Module, Module>` — build
the request from method, path, query, optional body and the if-match
flag, issue it once, and propagate the transport outcome (errors
wrapped, "not reinterpreted").  Returns the trace of issued requests
alongside the result. -/
def Client.request_module (self : Client) (method : Method) (path : String)
    (query : Option (List (String × String))) (body : Option Module)
    (add_if_match : Bool) :
    List HttpRequest × Except ErrorKind (Option Module) :=
  let req : HttpRequest := HttpRequest.mk method path query body add_if_match
  ([req],
    match self.service.respond_module req with
    | Except.error e => Except.error (ErrorKind.client e)
    | Except.ok b => Except.ok b)

/-- Modelled from the spec: `Client::request::<(), Vec<Module>>`. -/
def Client.request_module_list (self : Client) (method : Method) (path : String)
    (query : Option (List (String × String))) (body : Option Module)
    (add_if_match : Bool) :
    List HttpRequest × Except ErrorKind (Option (List Module)) :=
  let req : HttpRequest := HttpRequest.mk method path query body add_if_match
  ([req],
    match self.service.respond_module_list req with
    | Except.error e => Except.error (ErrorKind.client e)
    | Except.ok b => Except.ok b)

/-- Modelled from the spec: `Client::request::<(), ()>`. -/
def Client.request_unit (self : Client) (method : Method) (path : String)
    (query : Option (List (String × String))) (body : Option Module)
    (add_if_match : Bool) :
    List HttpRequest × Except ErrorKind (Option Unit) :=
  let req : HttpRequest := HttpRequest.mk method path query body add_if_match
  ([req],
    match self.service.respond_unit req with
    | Except.error e => Except.error (ErrorKind.client e)
    | Except.ok b => Except.ok b)

/-- `DeviceClient` (device.rs lines 10-16): a generic client plus the
device identifier it is bound to. -/
structure DeviceClient where
  client : Client
  device_id : String

/-- `DeviceClient::new` (device.rs lines 22-27): validate the device id
with `ensure_not_empty!` and store it. -/
def DeviceClient.new (client : Client) (device_id : String) :
    Except ErrorKind DeviceClient :=
  match ensure_not_empty device_id with
  | Except.error e => Except.error e
  | Except.ok v => Except.ok (DeviceClient.mk client v)

/-- `DeviceClient::upsert_module` (device.rs lines 63-88): validate the
module id, build the body from `Module::default()` with device id,
module id and (when supplied) the authentication mechanism, PUT it to
`/devices/{}/modules/{}`, and turn a present-but-missing body into
`EmptyResponse`. -/
def DeviceClient.upsert_module (self : DeviceClient) (module_id : String)
    (authentication : Option AuthMechanism) (add_if_match : Bool) :
    List HttpRequest × Except ErrorKind Module :=
  match fensure_not_empty module_id with
  | Except.error e => ([], Except.error e)
  | Except.ok mid =>
    let module0 := (Module.default.with_device_id self.device_id).with_module_id mid
    let module1 :=
      match authentication with
      | some authentication => module0.with_authentication authentication
      | none => module0
    let out := Client.request_module self.client Method.put
      ("/devices/" ++ self.device_id ++ "/modules/" ++ module_id)
      none (some module1) add_if_match
    (out.1,
      match out.2 with
      | Except.error e => Except.error e
      | Except.ok none => Except.error ErrorKind.emptyResponse
      | Except.ok (some m) => Except.ok m)

/-- `DeviceClient::create_module` (device.rs lines 33-39): upsert with
`add_if_match = false`. -/
def DeviceClient.create_module (self : DeviceClient) (module_id : String)
    (authentication : Option AuthMechanism) :
    List HttpRequest × Except ErrorKind Module :=
  self.upsert_module module_id authentication false

/-- `DeviceClient::update_module` (device.rs lines 55-61): upsert with
`add_if_match = true`. -/
def DeviceClient.update_module (self : DeviceClient) (module_id : String)
    (authentication : Option AuthMechanism) :
    List HttpRequest × Except ErrorKind Module :=
  self.upsert_module module_id authentication true

/-- `DeviceClient::list_modules` (device.rs lines 41-53): GET
`/devices/{}/modules` with no body and `add_if_match = false`, failing
with `EmptyResponse` when the body is absent. -/
def DeviceClient.list_modules (self : DeviceClient) :
    List HttpRequest × Except ErrorKind (List Module) :=
  let out := Client.request_module_list self.client Method.get
    ("/devices/" ++ self.device_id ++ "/modules") none none false
  (out.1,
    match out.2 with
    | Except.error e => Except.error e
    | Except.ok none => Except.error ErrorKind.emptyResponse
    | Except.ok (some modules) => Except.ok modules)

/-- `DeviceClient::delete_module` (device.rs lines 90-106): validate the
module id, DELETE `/devices/{}/modules/{}` with `add_if_match = true`,
and map any successful outcome to `()` (`.and_then(|_| Ok(()))`). -/
def DeviceClient.delete_module (self : DeviceClient) (module_id : String) :
    List HttpRequest × Except ErrorKind Unit :=
  match fensure_not_empty module_id with
  | Except.error e => ([], Except.error e)
  | Except.ok mid =>
    let out := Client.request_unit self.client Method.delete
      ("/devices/" ++ self.device_id ++ "/modules/" ++ mid)
      none none true
    (out.1,
      match out.2 with
      | Except.error e => Except.error e
      | Except.ok _ => Except.ok ())

/-- A stub transport answering every request with fixed outcomes; used
to instantiate theorems at concrete inputs. -/
def stubService (m : Except ClientError (Option Module))
    (l : Except ClientError (Option (List Module)))
    (u : Except ClientError (Option Unit)) : Transport :=
  Transport.mk (fun _ => m) (fun _ => l) (fun _ => u)

/-- A concrete generic client over a stub transport that reports a
missing body for every request. -/
def stubClientNone : Client :=
  Client.mk (stubService (Except.ok none) (Except.ok none) (Except.ok none))
    "2018-04-10" "http://localhost"

/-- A server-assigned module value, as echoed by a registry. -/
def sampleModule : Module :=
  Module.mk (some "d1") (some "m1") (some "g1") (some "iotedge") none

/-- A concrete generic client over a stub transport that returns a body
for every request. -/
def stubClientSome : Client :=
  Client.mk
    (stubService (Except.ok (some sampleModule))
      (Except.ok (some [sampleModule])) (Except.ok (some ())))
    "2018-04-10" "http://localhost"

/-- A concrete authentication mechanism, built the way the callers in
the repository build one. -/
def sampleAuth : AuthMechanism :=
  (AuthMechanism.default.with_type AuthType.sas).with_symmetric_key
    ((SymmetricKey.default.with_primary_key "pkey").with_secondary_key "skey")

/-- A concrete generic client whose stub transport answers list requests
with an empty JSON array (a present, empty body). -/
def stubClientEmptyList : Client :=
  Client.mk
    (stubService (Except.ok none) (Except.ok (some ([] : List Module))) (Except.ok none))
    "2018-04-10" "http://localhost"

/-- The single request `upsert_module` issues for a valid module id:
PUT on the concatenated path, no query, the constructed `Module` body,
and the caller's if-match flag. -/
theorem upsert_module_trace (c : DeviceClient) (m : String) (a : Option AuthMechanism)
    (flag : Bool) (h : is_empty_or_whitespace m = false) :
    (c.upsert_module m a flag).1
      = [HttpRequest.mk Method.put ("/devices/" ++ c.device_id ++ "/modules/" ++ m) none
          (some (Module.mk (some c.device_id) (some m) none none a)) flag] := by
  cases a <;>
    simp [DeviceClient.upsert_module, fensure_not_empty, ensure_not_empty, h,
      Client.request_module, Module.default, Module.with_device_id, Module.with_module_id,
      Module.with_authentication]

/-- The single request `delete_module` issues for a valid module id. -/
theorem delete_module_trace (c : DeviceClient) (m : String)
    (h : is_empty_or_whitespace m = false) :
    (c.delete_module m).1
      = [HttpRequest.mk Method.delete ("/devices/" ++ c.device_id ++ "/modules/" ++ m) none
          none true] := by
  simp [DeviceClient.delete_module, fensure_not_empty, ensure_not_empty, h,
    Client.request_unit]

/-- The single request `list_modules` issues. -/
theorem list_modules_trace (c : DeviceClient) :
    c.list_modules.1
      = [HttpRequest.mk Method.get ("/devices/" ++ c.device_id ++ "/modules") none
          none false] := by
  simp [DeviceClient.list_modules, Client.request_module_list]

/-- Claim C1: for every identifier that is empty or composed only of
whitespace, `DeviceClient::new` fails with the `ArgumentEmpty`
validation error kind, and `create_module`, `update_module` and
`delete_module` called with it as module id fail the same way with an
empty request trace — the injected transport is never invoked. -/
theorem blank_identifiers_fail_validation (cl : Client) (s : String)
    (h : is_empty_or_whitespace s = true)
    (c : DeviceClient) (a : Option AuthMechanism) :
    DeviceClient.new cl s = Except.error (ErrorKind.argumentEmpty s) ∧
    c.create_module s a = ([], Except.error (ErrorKind.argumentEmpty s)) ∧
    c.update_module s a = ([], Except.error (ErrorKind.argumentEmpty s)) ∧
    c.delete_module s = ([], Except.error (ErrorKind.argumentEmpty s)) := by
  simp [DeviceClient.new, DeviceClient.create_module, DeviceClient.update_module,
    DeviceClient.delete_module, DeviceClient.upsert_module,
    fensure_not_empty, ensure_not_empty, h]

/-- Claim C1 witness: the whitespace-only identifier `"   "` is
rejected everywhere with `ArgumentEmpty` and an empty trace. -/
theorem blank_identifiers_fail_validation_check :
    DeviceClient.new stubClientSome "   " = Except.error (ErrorKind.argumentEmpty "   ") ∧
    (DeviceClient.mk stubClientSome "d1").create_module "   " none
      = ([], Except.error (ErrorKind.argumentEmpty "   ")) ∧
    (DeviceClient.mk stubClientSome "d1").update_module "   " none
      = ([], Except.error (ErrorKind.argumentEmpty "   ")) ∧
    (DeviceClient.mk stubClientSome "d1").delete_module "   "
      = ([], Except.error (ErrorKind.argumentEmpty "   ")) :=
  blank_identifiers_fail_validation stubClientSome "   " (by decide)
    (DeviceClient.mk stubClientSome "d1") none

/-- Claim C8: for an empty or whitespace-only module id the resolved
result of `create_module`, `update_module` and `delete_module` is the
validation error with an empty request trace, and the entire outcome is
independent of the injected client — the transport is never touched, so
the returned (already-resolved) future cannot depend on any I/O. -/
theorem validation_short_circuits_synchronously (d m : String) (a : Option AuthMechanism)
    (h : is_empty_or_whitespace m = true) (cl cl' : Client) :
    (DeviceClient.mk cl d).create_module m a
      = ([], Except.error (ErrorKind.argumentEmpty m)) ∧
    (DeviceClient.mk cl d).update_module m a
      = ([], Except.error (ErrorKind.argumentEmpty m)) ∧
    (DeviceClient.mk cl d).delete_module m
      = ([], Except.error (ErrorKind.argumentEmpty m)) ∧
    (DeviceClient.mk cl d).create_module m a = (DeviceClient.mk cl' d).create_module m a ∧
    (DeviceClient.mk cl d).update_module m a = (DeviceClient.mk cl' d).update_module m a ∧
    (DeviceClient.mk cl d).delete_module m = (DeviceClient.mk cl' d).delete_module m := by
  simp [DeviceClient.create_module, DeviceClient.update_module,
    DeviceClient.delete_module, DeviceClient.upsert_module,
    fensure_not_empty, ensure_not_empty, h]

/-- Claim C8 witness: with the empty module id, two clients whose
transports answer differently produce the same already-resolved
validation error. -/
theorem validation_short_circuits_synchronously_check :
    (DeviceClient.mk stubClientNone "d1").create_module "" none
      = ([], Except.error (ErrorKind.argumentEmpty "")) ∧
    (DeviceClient.mk stubClientNone "d1").update_module "" none
      = ([], Except.error (ErrorKind.argumentEmpty "")) ∧
    (DeviceClient.mk stubClientNone "d1").delete_module ""
      = ([], Except.error (ErrorKind.argumentEmpty "")) ∧
    (DeviceClient.mk stubClientNone "d1").create_module "" none
      = (DeviceClient.mk stubClientSome "d1").create_module "" none ∧
    (DeviceClient.mk stubClientNone "d1").update_module "" none
      = (DeviceClient.mk stubClientSome "d1").update_module "" none ∧
    (DeviceClient.mk stubClientNone "d1").delete_module ""
      = (DeviceClient.mk stubClientSome "d1").delete_module "" :=
  validation_short_circuits_synchronously "d1" "" none (by decide)
    stubClientNone stubClientSome

/-- Claim C9: `DeviceClient::new` succeeds for every device id that is
non-empty after trimming, storing exactly the given id, which the
`device_id` accessor returns; the operations never produce a modified
client (they borrow it immutably), so the id is fixed at
construction. -/
theorem device_id_fixed_at_construction (cl : Client) (d : String)
    (h : is_empty_or_whitespace d = false) :
    DeviceClient.new cl d = Except.ok (DeviceClient.mk cl d) ∧
    (DeviceClient.mk cl d).device_id = d := by
  simp [DeviceClient.new, ensure_not_empty, h]

/-- Claim C9 witness: construction with `"d1"` succeeds and the
accessor returns `"d1"`. -/
theorem device_id_fixed_at_construction_check :
    DeviceClient.new stubClientNone "d1" = Except.ok (DeviceClient.mk stubClientNone "d1") ∧
    (DeviceClient.mk stubClientNone "d1").device_id = "d1" :=
  device_id_fixed_at_construction stubClientNone "d1" (by decide)

/-- Claim C2: for a valid module id, `update_module` and
`delete_module` each issue exactly one request carrying the
unconditional-match header, while `create_module` and `list_modules`
each issue exactly one request with the header omitted. -/
theorem conditional_header_policy (c : DeviceClient) (m : String)
    (a : Option AuthMechanism) (h : is_empty_or_whitespace m = false) :
    (c.update_module m a).1.map HttpRequest.add_if_match = [true] ∧
    (c.delete_module m).1.map HttpRequest.add_if_match = [true] ∧
    (c.create_module m a).1.map HttpRequest.add_if_match = [false] ∧
    c.list_modules.1.map HttpRequest.add_if_match = [false] := by
  rw [DeviceClient.update_module, DeviceClient.create_module,
    upsert_module_trace c m a true h, upsert_module_trace c m a false h,
    delete_module_trace c m h, list_modules_trace c]
  simp

/-- Claim C2 witness: the policy at device `"d1"`, module `"m1"`. -/
theorem conditional_header_policy_check :
    ((DeviceClient.mk stubClientSome "d1").update_module "m1" none).1.map
      HttpRequest.add_if_match = [true] ∧
    ((DeviceClient.mk stubClientSome "d1").delete_module "m1").1.map
      HttpRequest.add_if_match = [true] ∧
    ((DeviceClient.mk stubClientSome "d1").create_module "m1" none).1.map
      HttpRequest.add_if_match = [false] ∧
    (DeviceClient.mk stubClientSome "d1").list_modules.1.map
      HttpRequest.add_if_match = [false] :=
  conditional_header_policy (DeviceClient.mk stubClientSome "d1") "m1" none (by decide)

/-- Claim C10: for every module id accepted by validation, the path of
the one request issued by `create_module`, `update_module` and
`delete_module` is the plain string concatenation
`"/devices/" ++ device_id ++ "/modules/" ++ m`, with no
percent-encoding or escaping of the module id. -/
theorem module_id_interpolated_verbatim (c : DeviceClient) (m : String)
    (a : Option AuthMechanism) (h : is_empty_or_whitespace m = false) :
    (c.create_module m a).1.map HttpRequest.path
      = ["/devices/" ++ c.device_id ++ "/modules/" ++ m] ∧
    (c.update_module m a).1.map HttpRequest.path
      = ["/devices/" ++ c.device_id ++ "/modules/" ++ m] ∧
    (c.delete_module m).1.map HttpRequest.path
      = ["/devices/" ++ c.device_id ++ "/modules/" ++ m] := by
  rw [DeviceClient.update_module, DeviceClient.create_module,
    upsert_module_trace c m a true h, upsert_module_trace c m a false h,
    delete_module_trace c m h]
  simp

/-- Claim C10 witness: the path-significant id `"a/b?c d"` is embedded
as-is, altering the effective path. -/
theorem module_id_interpolated_verbatim_check :
    ((DeviceClient.mk stubClientSome "d1").create_module "a/b?c d" none).1.map
      HttpRequest.path = ["/devices/d1/modules/a/b?c d"] ∧
    ((DeviceClient.mk stubClientSome "d1").update_module "a/b?c d" none).1.map
      HttpRequest.path = ["/devices/d1/modules/a/b?c d"] ∧
    ((DeviceClient.mk stubClientSome "d1").delete_module "a/b?c d").1.map
      HttpRequest.path = ["/devices/d1/modules/a/b?c d"] :=
  module_id_interpolated_verbatim (DeviceClient.mk stubClientSome "d1") "a/b?c d" none
    (by decide)

/-- Claim C3: for the same device id, valid module id and optional auth
mechanism, `create_module` and `update_module` issue exactly one
request each with identical method (PUT), identical path
`/devices/{device}/modules/{module}`, and identical request body; the
two requests differ only in the unconditional-match flag, set only for
update.  The serialized bytes coincide because the generic client
serializes the body as a function of this domain value. -/
theorem create_update_differ_only_in_if_match (c : DeviceClient) (m : String)
    (a : Option AuthMechanism) (h : is_empty_or_whitespace m = false) :
    (c.create_module m a).1.map HttpRequest.method = [Method.put] ∧
    (c.update_module m a).1.map HttpRequest.method = [Method.put] ∧
    (c.create_module m a).1.map HttpRequest.path
      = ["/devices/" ++ c.device_id ++ "/modules/" ++ m] ∧
    (c.update_module m a).1.map HttpRequest.path
      = ["/devices/" ++ c.device_id ++ "/modules/" ++ m] ∧
    (c.create_module m a).1.map HttpRequest.body
      = (c.update_module m a).1.map HttpRequest.body ∧
    (c.create_module m a).1.map HttpRequest.add_if_match = [false] ∧
    (c.update_module m a).1.map HttpRequest.add_if_match = [true] := by
  rw [DeviceClient.update_module, DeviceClient.create_module,
    upsert_module_trace c m a true h, upsert_module_trace c m a false h]
  simp

/-- Claim C3 witness: create and update at `"d1"`/`"m1"` with a
symmetric-key auth mechanism. -/
theorem create_update_differ_only_in_if_match_check :
    ((DeviceClient.mk stubClientSome "d1").create_module "m1" (some sampleAuth)).1.map
      HttpRequest.method = [Method.put] ∧
    ((DeviceClient.mk stubClientSome "d1").update_module "m1" (some sampleAuth)).1.map
      HttpRequest.method = [Method.put] ∧
    ((DeviceClient.mk stubClientSome "d1").create_module "m1" (some sampleAuth)).1.map
      HttpRequest.path = ["/devices/d1/modules/m1"] ∧
    ((DeviceClient.mk stubClientSome "d1").update_module "m1" (some sampleAuth)).1.map
      HttpRequest.path = ["/devices/d1/modules/m1"] ∧
    ((DeviceClient.mk stubClientSome "d1").create_module "m1" (some sampleAuth)).1.map
      HttpRequest.body
      = ((DeviceClient.mk stubClientSome "d1").update_module "m1" (some sampleAuth)).1.map
        HttpRequest.body ∧
    ((DeviceClient.mk stubClientSome "d1").create_module "m1" (some sampleAuth)).1.map
      HttpRequest.add_if_match = [false] ∧
    ((DeviceClient.mk stubClientSome "d1").update_module "m1" (some sampleAuth)).1.map
      HttpRequest.add_if_match = [true] :=
  create_update_differ_only_in_if_match (DeviceClient.mk stubClientSome "d1") "m1"
    (some sampleAuth) (by decide)

/-- Claim C7: for a valid module id, the body sent by `create_module`
and `update_module` is the default `Module` with device id set to the
client's device id, module id set to the argument, the authentication
field equal to the caller's optional mechanism (so unset exactly when
none was supplied), and generation id and managed-by never set. -/
theorem upsert_module_body_construction (c : DeviceClient) (m : String)
    (a : Option AuthMechanism) (h : is_empty_or_whitespace m = false) :
    (c.create_module m a).1.map HttpRequest.body
      = [some (Module.mk (some c.device_id) (some m) none none a)] ∧
    (c.update_module m a).1.map HttpRequest.body
      = [some (Module.mk (some c.device_id) (some m) none none a)] := by
  rw [DeviceClient.update_module, DeviceClient.create_module,
    upsert_module_trace c m a true h, upsert_module_trace c m a false h]
  simp

/-- Claim C7 witness: with auth supplied the field is set to it; the
request body carries no generation id and no managed-by. -/
theorem upsert_module_body_construction_check :
    ((DeviceClient.mk stubClientSome "d1").create_module "m1" (some sampleAuth)).1.map
      HttpRequest.body
      = [some (Module.mk (some "d1") (some "m1") none none (some sampleAuth))] ∧
    ((DeviceClient.mk stubClientSome "d1").update_module "m1" (some sampleAuth)).1.map
      HttpRequest.body
      = [some (Module.mk (some "d1") (some "m1") none none (some sampleAuth))] :=
  upsert_module_body_construction (DeviceClient.mk stubClientSome "d1") "m1"
    (some sampleAuth) (by decide)

/-- Claim C4: `list_modules` issues exactly one GET request to
`/devices/{device}/modules` with no body and no conditional header;
when the transport delivers a deserialized array (of any length,
including zero) the operation returns that very list — same length,
same order — and it fails with `EmptyResponse` exactly when the body
was entirely missing. -/
theorem list_modules_request_and_array_preservation (c : DeviceClient) :
    c.list_modules.1.map HttpRequest.method = [Method.get] ∧
    c.list_modules.1.map HttpRequest.path = ["/devices/" ++ c.device_id ++ "/modules"] ∧
    c.list_modules.1.map HttpRequest.body = [(none : Option Module)] ∧
    c.list_modules.1.map HttpRequest.add_if_match = [false] ∧
    (∀ req l, c.list_modules.1 = [req] →
      c.client.service.respond_module_list req = Except.ok (some l) →
      c.list_modules.2 = Except.ok l) ∧
    (∀ req, c.list_modules.1 = [req] →
      (c.list_modules.2 = Except.error ErrorKind.emptyResponse ↔
        c.client.service.respond_module_list req = Except.ok none)) := by
  refine ⟨?_, ?_, ?_, ?_, ?_, ?_⟩
  · rw [list_modules_trace c]; simp
  · rw [list_modules_trace c]; simp
  · rw [list_modules_trace c]; simp
  · rw [list_modules_trace c]; simp
  · intro req l hreq hresp
    rw [list_modules_trace c] at hreq
    obtain rfl : HttpRequest.mk Method.get ("/devices/" ++ c.device_id ++ "/modules")
        none none false = req := by
      injection hreq
    simp [DeviceClient.list_modules, Client.request_module_list, hresp]
  · intro req hreq
    rw [list_modules_trace c] at hreq
    obtain rfl : HttpRequest.mk Method.get ("/devices/" ++ c.device_id ++ "/modules")
        none none false = req := by
      injection hreq
    rcases hr : c.client.service.respond_module_list
        (HttpRequest.mk Method.get ("/devices/" ++ c.device_id ++ "/modules")
          none none false) with e | b
    · simp [DeviceClient.list_modules, Client.request_module_list, hr]
    · cases b <;> simp [DeviceClient.list_modules, Client.request_module_list, hr]

/-- Claim C4 witness: a server answering with the empty JSON array
yields the empty list, not `EmptyResponse`. -/
theorem list_modules_request_and_array_preservation_check :
    (DeviceClient.mk stubClientEmptyList "d1").list_modules.2
      = Except.ok ([] : List Module) :=
  (list_modules_request_and_array_preservation
      (DeviceClient.mk stubClientEmptyList "d1")).2.2.2.2.1
    (HttpRequest.mk Method.get "/devices/d1/modules" none none false)
    ([] : List Module) (by decide) rfl

/-- The request `upsert_module` issues for a valid module id, as a
definition (see `upsert_module_trace`). -/
def upsertRequest (c : DeviceClient) (m : String) (a : Option AuthMechanism)
    (flag : Bool) : HttpRequest :=
  HttpRequest.mk Method.put ("/devices/" ++ c.device_id ++ "/modules/" ++ m) none
    (some (Module.mk (some c.device_id) (some m) none none a)) flag

/-- The request `list_modules` issues, as a definition (see
`list_modules_trace`). -/
def listRequest (c : DeviceClient) : HttpRequest :=
  HttpRequest.mk Method.get ("/devices/" ++ c.device_id ++ "/modules") none none false

/-- For a valid module id, `upsert_module` is the generic client's PUT
with the constructed body, its empty-body outcome adapted to
`EmptyResponse`. -/
theorem upsert_module_eq (c : DeviceClient) (m : String) (a : Option AuthMechanism)
    (flag : Bool) (h : is_empty_or_whitespace m = false) :
    c.upsert_module m a flag
      = ((Client.request_module c.client Method.put
            ("/devices/" ++ c.device_id ++ "/modules/" ++ m) none
            (some (Module.mk (some c.device_id) (some m) none none a)) flag).1,
         match (Client.request_module c.client Method.put
            ("/devices/" ++ c.device_id ++ "/modules/" ++ m) none
            (some (Module.mk (some c.device_id) (some m) none none a)) flag).2 with
         | Except.error e => Except.error e
         | Except.ok none => Except.error ErrorKind.emptyResponse
         | Except.ok (some mod) => Except.ok mod) := by
  cases a <;>
    simp [DeviceClient.upsert_module, fensure_not_empty, ensure_not_empty, h,
      Module.default, Module.with_device_id, Module.with_module_id,
      Module.with_authentication]

/-- How `upsert_module` adapts the transport outcome of its one request:
a present body is returned as-is, a missing body becomes
`EmptyResponse` (and nothing else does). -/
theorem upsert_module_response_adaptation (c : DeviceClient) (m : String)
    (a : Option AuthMechanism) (flag : Bool) (h : is_empty_or_whitespace m = false) :
    (∀ mod, c.client.service.respond_module (upsertRequest c m a flag)
        = Except.ok (some mod) →
      (c.upsert_module m a flag).2 = Except.ok mod) ∧
    ((c.upsert_module m a flag).2 = Except.error ErrorKind.emptyResponse ↔
      c.client.service.respond_module (upsertRequest c m a flag) = Except.ok none) := by
  rw [upsert_module_eq c m a flag h]
  simp only [Client.request_module, upsertRequest]
  rcases hr : c.client.service.respond_module (HttpRequest.mk Method.put
      ("/devices/" ++ c.device_id ++ "/modules/" ++ m) none
      (some (Module.mk (some c.device_id) (some m) none none a)) flag) with e | b
  · simp [hr]
  · cases b <;> simp [hr]

/-- `list_modules` is the generic client's GET with no body, its
empty-body outcome adapted to `EmptyResponse`. -/
theorem list_modules_eq (c : DeviceClient) :
    c.list_modules
      = ((Client.request_module_list c.client Method.get
            ("/devices/" ++ c.device_id ++ "/modules") none none false).1,
         match (Client.request_module_list c.client Method.get
            ("/devices/" ++ c.device_id ++ "/modules") none none false).2 with
         | Except.error e => Except.error e
         | Except.ok none => Except.error ErrorKind.emptyResponse
         | Except.ok (some modules) => Except.ok modules) := by
  simp [DeviceClient.list_modules]

/-- How `list_modules` adapts the transport outcome of its one
request. -/
theorem list_modules_response_adaptation (c : DeviceClient) :
    (∀ l, c.client.service.respond_module_list (listRequest c) = Except.ok (some l) →
      c.list_modules.2 = Except.ok l) ∧
    (c.list_modules.2 = Except.error ErrorKind.emptyResponse ↔
      c.client.service.respond_module_list (listRequest c) = Except.ok none) := by
  rw [list_modules_eq c]
  simp only [Client.request_module_list, listRequest]
  rcases hr : c.client.service.respond_module_list (HttpRequest.mk Method.get
      ("/devices/" ++ c.device_id ++ "/modules") none none false) with e | b
  · simp [hr]
  · cases b <;> simp [hr]

/-- Claim C5: `create_module`, `update_module` and `list_modules` each
issue exactly one request; they fail with `EmptyResponse` exactly when
the transport completes successfully but delivers no body, and when a
body is present and deserializes they succeed with the deserialized
value. -/
theorem empty_response_iff_missing_body (c : DeviceClient) (m : String)
    (a : Option AuthMechanism) (h : is_empty_or_whitespace m = false) :
    (c.create_module m a).1 = [upsertRequest c m a false] ∧
    (c.update_module m a).1 = [upsertRequest c m a true] ∧
    c.list_modules.1 = [listRequest c] ∧
    (∀ mod, c.client.service.respond_module (upsertRequest c m a false)
        = Except.ok (some mod) →
      (c.create_module m a).2 = Except.ok mod) ∧
    ((c.create_module m a).2 = Except.error ErrorKind.emptyResponse ↔
      c.client.service.respond_module (upsertRequest c m a false) = Except.ok none) ∧
    (∀ mod, c.client.service.respond_module (upsertRequest c m a true)
        = Except.ok (some mod) →
      (c.update_module m a).2 = Except.ok mod) ∧
    ((c.update_module m a).2 = Except.error ErrorKind.emptyResponse ↔
      c.client.service.respond_module (upsertRequest c m a true) = Except.ok none) ∧
    (∀ l, c.client.service.respond_module_list (listRequest c) = Except.ok (some l) →
      c.list_modules.2 = Except.ok l) ∧
    (c.list_modules.2 = Except.error ErrorKind.emptyResponse ↔
      c.client.service.respond_module_list (listRequest c) = Except.ok none) := by
  have hc := upsert_module_response_adaptation c m a false h
  have hu := upsert_module_response_adaptation c m a true h
  have hl := list_modules_response_adaptation c
  refine ⟨?_, ?_, ?_, hc.1, hc.2, hu.1, hu.2, hl.1, hl.2⟩
  · rw [DeviceClient.create_module, upsert_module_trace c m a false h]; rfl
  · rw [DeviceClient.update_module, upsert_module_trace c m a true h]; rfl
  · rw [list_modules_trace c]; rfl

/-- Claim C5 witness: a transport that echoes a server-assigned module
makes `create_module` succeed with exactly that value. -/
theorem empty_response_iff_missing_body_check :
    ((DeviceClient.mk stubClientSome "d1").create_module "m1" none).2
      = Except.ok sampleModule :=
  (empty_response_iff_missing_body (DeviceClient.mk stubClientSome "d1") "m1" none
      (by decide)).2.2.2.1 sampleModule rfl

/-- Claim C6: for a valid module id, `delete_module` issues exactly one
DELETE and reports the unit value once the transport outcome is
successful, whether or not a (deserialized) body was returned — the
body is discarded. -/
theorem delete_module_discards_response_body (c : DeviceClient) (m : String)
    (h : is_empty_or_whitespace m = false) :
    (c.delete_module m).1
      = [HttpRequest.mk Method.delete ("/devices/" ++ c.device_id ++ "/modules/" ++ m)
          none none true] ∧
    (∀ b, c.client.service.respond_unit
        (HttpRequest.mk Method.delete ("/devices/" ++ c.device_id ++ "/modules/" ++ m)
          none none true) = Except.ok b →
      (c.delete_module m).2 = Except.ok ()) := by
  refine ⟨delete_module_trace c m h, ?_⟩
  intro b hb
  simp [DeviceClient.delete_module, fensure_not_empty, ensure_not_empty, h,
    Client.request_unit, hb]

/-- Claim C6 witness: a transport returning a (present) body still
yields the unit success for `delete_module`. -/
theorem delete_module_discards_response_body_check :
    ((DeviceClient.mk stubClientSome "d1").delete_module "m1").2 = Except.ok () :=
  (delete_module_discards_response_body (DeviceClient.mk stubClientSome "d1") "m1"
      (by decide)).2 (some ()) rfl

end IotHubService
